import Mathlib

/-!
Shallow embedding of the yat-rs terminal core (`src/tui.rs`) and its
configuration merge (`src/config.rs`).

Drawing primitives are modelled at two levels:
* the call-trace level: each `mvprintw(y, x, text)` call is recorded as a
  `PrintEvent` carrying the logical (zero-indexed) coordinates and the text;
* the write level: the byte strings the program writes to stdout
  (terminal escape sequences, as produced by the termion crate's
  `cursor`, `clear`, `style` and `color` display implementations).

Unsigned (`usize`) subtraction is modelled with `checkedSub`: a Rust
subtraction that would underflow is `none` (a panic in debug builds,
undefined wrapped output otherwise), so a primitive built from it returns
`Option` and is `none` exactly when some subtraction underflows, in the
source's evaluation order.
-/

/-- The colour values the program uses: the eight ANSI base colours and the
terminal-default `Reset` (used by `Config::default`), plus `Rgb` values
(the only colour a `ConfigBuffer` can hold).  In the source these are all
`termion::color::Color` trait objects. -/
inductive Colour where
  | black
  | red
  | green
  | yellow
  | blue
  | magenta
  | cyan
  | white
  | reset
  | rgb (r g b : Nat)
deriving DecidableEq

/-- The foreground activation sequence of a colour, as written by termion's
`color::Fg` display implementation. -/
def Colour.fg : Colour → String
  | .black => "\x1b[38;5;0m"
  | .red => "\x1b[38;5;1m"
  | .green => "\x1b[38;5;2m"
  | .yellow => "\x1b[38;5;3m"
  | .blue => "\x1b[38;5;4m"
  | .magenta => "\x1b[38;5;5m"
  | .cyan => "\x1b[38;5;6m"
  | .white => "\x1b[38;5;7m"
  | .reset => "\x1b[39m"
  | .rgb r g b =>
      "\x1b[38;2;" ++ toString r ++ ";" ++ toString g ++ ";" ++ toString b ++ "m"

/-- The background activation sequence of a colour, as written by termion's
`color::Bg` display implementation. -/
def Colour.bg : Colour → String
  | .black => "\x1b[48;5;0m"
  | .red => "\x1b[48;5;1m"
  | .green => "\x1b[48;5;2m"
  | .yellow => "\x1b[48;5;3m"
  | .blue => "\x1b[48;5;4m"
  | .magenta => "\x1b[48;5;5m"
  | .cyan => "\x1b[48;5;6m"
  | .white => "\x1b[48;5;7m"
  | .reset => "\x1b[49m"
  | .rgb r g b =>
      "\x1b[48;2;" ++ toString r ++ ";" ++ toString g ++ ";" ++ toString b ++ "m"

/-- The `termion::event::Key` variants the program constructs: printable
characters and the arrow keys used by the default bindings. -/
inductive Key where
  | char (c : Char)
  | up
  | down
deriving DecidableEq

/-- `Config` (src/config.rs): six border glyphs, ten colours and fifteen key
bindings.  Every field is mandatory — the type has no optional field. -/
structure Config where
  hline : List Char
  vline : List Char
  ulcorner : List Char
  urcorner : List Char
  llcorner : List Char
  lrcorner : List Char
  colour0 : Colour
  colour1 : Colour
  colour2 : Colour
  colour3 : Colour
  colour4 : Colour
  colour5 : Colour
  colour6 : Colour
  colour7 : Colour
  colourfg : Colour
  colourbg : Colour
  quit : Key
  back : Key
  save : Key
  add : Key
  edit : Key
  delete : Key
  task_up : Key
  task_down : Key
  up : Key
  down : Key
  focus : Key
  complete : Key
  increase : Key
  decrease : Key
  sort : Key

/-- `Config::default` (src/config.rs lines 137–210). -/
def Config.default : Config where
  hline := "─".toList
  vline := "│".toList
  ulcorner := "┌".toList
  urcorner := "┐".toList
  llcorner := "└".toList
  lrcorner := "┘".toList
  colour0 := Colour.black
  colour1 := Colour.red
  colour2 := Colour.green
  colour3 := Colour.yellow
  colour4 := Colour.blue
  colour5 := Colour.magenta
  colour6 := Colour.cyan
  colour7 := Colour.white
  colourfg := Colour.reset
  colourbg := Colour.reset
  quit := Key.char 'q'
  back := Key.char 'b'
  save := Key.char 'w'
  add := Key.char 'a'
  edit := Key.char 'e'
  delete := Key.char 'd'
  task_up := Key.char 'u'
  task_down := Key.char 'n'
  up := Key.up
  down := Key.down
  focus := Key.char '\n'
  complete := Key.char ' '
  increase := Key.char '>'
  decrease := Key.char '<'
  sort := Key.char 'r'

/-- `ConfigBuffer` (src/config.rs lines 214–246): the override
representation, same shape as `Config` but every field optional.  In the
source the colour fields hold `color::Rgb` values; both those and the
defaults are `&dyn Color`, modelled here by the one `Colour` type. -/
structure ConfigBuffer where
  hline : Option (List Char)
  vline : Option (List Char)
  ulcorner : Option (List Char)
  urcorner : Option (List Char)
  llcorner : Option (List Char)
  lrcorner : Option (List Char)
  colour0 : Option Colour
  colour1 : Option Colour
  colour2 : Option Colour
  colour3 : Option Colour
  colour4 : Option Colour
  colour5 : Option Colour
  colour6 : Option Colour
  colour7 : Option Colour
  colourfg : Option Colour
  colourbg : Option Colour
  quit : Option Key
  back : Option Key
  save : Option Key
  add : Option Key
  edit : Option Key
  delete : Option Key
  task_up : Option Key
  task_down : Option Key
  up : Option Key
  down : Option Key
  focus : Option Key
  complete : Option Key
  increase : Option Key
  decrease : Option Key
  sort : Option Key

/-- The expansion of the `choose_config!` / `choose_config_val!` macros in
`ConfigBuffer::config`: the override value when present, else the default. -/
def chooseConfig {α : Type} (val : Option α) (d : α) : α :=
  match val with
  | some v => v
  | none => d

/-- `ConfigBuffer::config` (src/config.rs lines 250–345): merge a buffer of
optional overrides onto a default `Config`, field by field. -/
def ConfigBuffer.config (self : ConfigBuffer) (default : Config) : Config where
  hline := chooseConfig self.hline default.hline
  vline := chooseConfig self.vline default.vline
  ulcorner := chooseConfig self.ulcorner default.ulcorner
  urcorner := chooseConfig self.urcorner default.urcorner
  llcorner := chooseConfig self.llcorner default.llcorner
  lrcorner := chooseConfig self.lrcorner default.lrcorner
  colour0 := chooseConfig self.colour0 default.colour0
  colour1 := chooseConfig self.colour1 default.colour1
  colour2 := chooseConfig self.colour2 default.colour2
  colour3 := chooseConfig self.colour3 default.colour3
  colour4 := chooseConfig self.colour4 default.colour4
  colour5 := chooseConfig self.colour5 default.colour5
  colour6 := chooseConfig self.colour6 default.colour6
  colour7 := chooseConfig self.colour7 default.colour7
  colourfg := chooseConfig self.colourfg default.colourfg
  colourbg := chooseConfig self.colourbg default.colourbg
  quit := chooseConfig self.quit default.quit
  back := chooseConfig self.back default.back
  save := chooseConfig self.save default.save
  add := chooseConfig self.add default.add
  edit := chooseConfig self.edit default.edit
  delete := chooseConfig self.delete default.delete
  task_up := chooseConfig self.task_up default.task_up
  task_down := chooseConfig self.task_down default.task_down
  up := chooseConfig self.up default.up
  down := chooseConfig self.down default.down
  focus := chooseConfig self.focus default.focus
  complete := chooseConfig self.complete default.complete
  increase := chooseConfig self.increase default.increase
  decrease := chooseConfig self.decrease default.decrease
  sort := chooseConfig self.sort default.sort

lemma chooseConfig_eq_getD {α : Type} (val : Option α) (d : α) :
    chooseConfig val d = val.getD d := by
  cases val <;> rfl

/-- C4: the merged configuration takes the override's value for every field
where the override is present and the default's value otherwise.  Every
field of the result is listed, so no field is unset after the merge (the
result type `Config` has no optional field). -/
theorem config_merge_law (b : ConfigBuffer) (d : Config) :
    (b.config d).hline = b.hline.getD d.hline ∧
    (b.config d).vline = b.vline.getD d.vline ∧
    (b.config d).ulcorner = b.ulcorner.getD d.ulcorner ∧
    (b.config d).urcorner = b.urcorner.getD d.urcorner ∧
    (b.config d).llcorner = b.llcorner.getD d.llcorner ∧
    (b.config d).lrcorner = b.lrcorner.getD d.lrcorner ∧
    (b.config d).colour0 = b.colour0.getD d.colour0 ∧
    (b.config d).colour1 = b.colour1.getD d.colour1 ∧
    (b.config d).colour2 = b.colour2.getD d.colour2 ∧
    (b.config d).colour3 = b.colour3.getD d.colour3 ∧
    (b.config d).colour4 = b.colour4.getD d.colour4 ∧
    (b.config d).colour5 = b.colour5.getD d.colour5 ∧
    (b.config d).colour6 = b.colour6.getD d.colour6 ∧
    (b.config d).colour7 = b.colour7.getD d.colour7 ∧
    (b.config d).colourfg = b.colourfg.getD d.colourfg ∧
    (b.config d).colourbg = b.colourbg.getD d.colourbg ∧
    (b.config d).quit = b.quit.getD d.quit ∧
    (b.config d).back = b.back.getD d.back ∧
    (b.config d).save = b.save.getD d.save ∧
    (b.config d).add = b.add.getD d.add ∧
    (b.config d).edit = b.edit.getD d.edit ∧
    (b.config d).delete = b.delete.getD d.delete ∧
    (b.config d).task_up = b.task_up.getD d.task_up ∧
    (b.config d).task_down = b.task_down.getD d.task_down ∧
    (b.config d).up = b.up.getD d.up ∧
    (b.config d).down = b.down.getD d.down ∧
    (b.config d).focus = b.focus.getD d.focus ∧
    (b.config d).complete = b.complete.getD d.complete ∧
    (b.config d).increase = b.increase.getD d.increase ∧
    (b.config d).decrease = b.decrease.getD d.decrease ∧
    (b.config d).sort = b.sort.getD d.sort := by
  and_intros <;> exact chooseConfig_eq_getD _ _

/-- Checked `usize` subtraction: `some (a - b)` when it does not underflow,
`none` when the Rust subtraction `a - b` would underflow. -/
def checkedSub (a b : Nat) : Option Nat :=
  if b ≤ a then some (a - b) else none

/-- The Rust half-open range `a..b`: the integers from `a` up to but
excluding `b`, empty when `a ≥ b`. -/
def rustRange (a b : Nat) : List Nat :=
  List.range' a (b - a)

/-- One recorded call `mvprintw(y, x, text)` with logical (zero-indexed)
coordinates. -/
structure PrintEvent where
  y : Nat
  x : Nat
  text : List Char
deriving DecidableEq

/-- `Window::wrap_print` (src/tui.rs lines 166–174) as the trace of its
`mvprintw` calls; `none` when one of its `usize` subtractions underflows.
Text is modelled as its character list (the spec defines clipping on
character count, not display width). -/
def wrap_print (y x width : Nat) (text : List Char) : Option (List PrintEvent) := do
  let wid ← checkedSub width 3
  let limit := if text.length > wid then wid else text.length
  let first : PrintEvent := ⟨y, x, text.take limit⟩
  if text.length > wid then
    let dots ← checkedSub (x + width) 3
    pure [first, ⟨y, dots, "...".toList⟩]
  else
    pure [first]

/-- C1 (counterexample): the claim predicts that a text of length 8 with
width 10 (length ≤ width) is printed unmodified with no ellipsis, but the
code truncates every text longer than `width - 3` characters: it prints the
first 7 characters and an ellipsis. -/
theorem wrap_print_short_cex :
    "hellowor".toList.length ≤ 10 ∧
    wrap_print 0 0 10 "hellowor".toList ≠ some [⟨0, 0, "hellowor".toList⟩] ∧
    wrap_print 0 0 10 "hellowor".toList =
      some [⟨0, 0, "hellowo".toList⟩, ⟨0, 7, "...".toList⟩] := by
  refine ⟨by decide, by decide, by decide⟩

/-- C1 (amended): for every text whose length is at most `width - 3`
(width ≥ 3), `wrap_print(row, col, width, text)` prints the text unmodified
at `(row, col)` as a single `mvprintw` call, with no truncation and no
ellipsis. -/
theorem wrap_print_short_amended (y x width : Nat) (text : List Char)
    (hw : 3 ≤ width) (hlen : text.length ≤ width - 3) :
    wrap_print y x width text = some [⟨y, x, text⟩] := by
  have h1 : ¬ (text.length > width - 3) := by omega
  simp [wrap_print, checkedSub, hw, h1, List.take_length]

/-- C1 (witness for the amended theorem): the spec's own example,
`wrap_print(0, 0, 10, "hi")` prints `"hi"` at (0, 0). -/
theorem wrap_print_short_amended_witness :
    wrap_print 0 0 10 "hi".toList = some [⟨0, 0, "hi".toList⟩] :=
  wrap_print_short_amended 0 0 10 "hi".toList (by decide) (by decide)

/-- C5: for every text longer than `width` (under the contract's
precondition width ≥ 3), `wrap_print(row, col, width, text)` prints exactly
the first `width - 3` characters at `(row, col)` and then prints `"..."`
starting at column `col + width - 3`. -/
theorem wrap_print_truncation (y x width : Nat) (text : List Char)
    (hw : 3 ≤ width) (hlen : width < text.length) :
    wrap_print y x width text =
      some [⟨y, x, text.take (width - 3)⟩, ⟨y, x + width - 3, "...".toList⟩] := by
  have h1 : text.length > width - 3 := by omega
  have hx : 3 ≤ x + width := by omega
  simp [wrap_print, checkedSub, hw, h1, hx]

/-- C5 (witness): the spec's example, `wrap_print(0, 0, 10, "helloworld!")`
(length 11 > width 10) prints the 7 characters `"hellowo"` at (0, 0) and
`"..."` at column 7. -/
theorem wrap_print_truncation_witness :
    wrap_print 0 0 10 "helloworld!".toList =
      some [⟨0, 0, "helloworld!".toList.take 7⟩, ⟨0, 7, "...".toList⟩] :=
  wrap_print_truncation 0 0 10 "helloworld!".toList (by decide) (by decide)

/-- C6: `wrap_print` computes `width - 3` with no check that `width ≥ 3`:
its unsigned arithmetic underflows exactly when `width < 3` (the result is
`none`), and for every `width ≥ 3` no subtraction in the function
underflows (the result is `some`), whatever the coordinates and text. -/
theorem wrap_print_underflow_iff (y x width : Nat) (text : List Char) :
    (wrap_print y x width text).isSome ↔ 3 ≤ width := by
  rcases le_or_lt 3 width with h | h
  · have hx : 3 ≤ x + width := by omega
    simp only [wrap_print, checkedSub, h, hx, if_true, Option.bind_eq_bind,
      Option.some_bind]
    split <;> simp [h]
  · have h3 : ¬ (3 ≤ width) := by omega
    simp [wrap_print, checkedSub, h3]

/-- `Window::border` (src/tui.rs lines 177–196) as the trace of its
`mvprintw` calls: four corners, then the vertical edges, then the
horizontal edges; `none` when one of its `usize` subtractions underflows.
The three subtractions (`y + 1 - height`, `x + width - 1`, `y + 2 - height`)
are hoisted to the front; this preserves both the `Option` outcome and the
successful trace, since each is evaluated unconditionally in the source
before any event that depends on it. -/
def border (cfg : Config) (lower_left dimensions : Nat × Nat) :
    Option (List PrintEvent) := do
  let (y, x) := lower_left
  let (height, width) := dimensions
  let top ← checkedSub (y + 1) height
  let right ← checkedSub (x + width) 1
  let vstart ← checkedSub (y + 2) height
  pure ([⟨top, x, cfg.ulcorner⟩, ⟨y, x, cfg.llcorner⟩,
         ⟨top, right, cfg.urcorner⟩, ⟨y, right, cfg.lrcorner⟩]
    ++ (rustRange vstart y).flatMap
        (fun j => [⟨j, x, cfg.vline⟩, ⟨j, right, cfg.vline⟩])
    ++ (rustRange (x + 1) right).flatMap
        (fun i => [⟨y, i, cfg.hline⟩, ⟨top, i, cfg.hline⟩]))

/-- The row loop of `Window::rectangle`: for each outer index `j`, the inner
bound `x + width - 1` is recomputed (and can underflow), then the inner loop
records `(j, i)` and `(j, i + width - 1)` for each `i` in `x..x+width-1`.
When the inner loop body runs, `x < x + width - 1` forces `width ≥ 2`, so
the body's own `i + width - 1` cannot underflow and is plain subtraction. -/
def rectRows (ch : List Char) (x width : Nat) : List Nat → Option (List PrintEvent)
  | [] => some []
  | j :: rest => do
      let bound ← checkedSub (x + width) 1
      let tail ← rectRows ch x width rest
      pure (((rustRange x bound).flatMap
          fun i => [⟨j, i, ch⟩, ⟨j, i + width - 1, ch⟩]) ++ tail)

/-- `Window::rectangle` (src/tui.rs lines 199–209) as the trace of its
`mvprintw` calls; `none` when one of its `usize` subtractions underflows.
The outer range is `(y - height + 1)..y`, so `y - height` is evaluated
unconditionally; the inner bound is evaluated once per outer iteration. -/
def rectangle (ch : List Char) (lower_left dimensions : Nat × Nat) :
    Option (List PrintEvent) := do
  let (y, x) := lower_left
  let (height, width) := dimensions
  let ystart ← checkedSub y height
  rectRows ch x width (rustRange (ystart + 1) y)

/-- C2: evaluated at anchor (5, 2) with dimensions (3, 3) — a box whose
interior is the single cell (4, 3) — `rectangle` does not fill the
interior: it paints eight cells, among them the top edge cell (3, 2), the
left edge cells, and the cells (3, 5) and (4, 5) that lie entirely outside
the 3-wide box (columns 2..4).  In particular its output is not the single
interior paint the claim (and the function's own "fill a rectangular
region" documentation) describes. -/
theorem rectangle_not_interior_fill :
    rectangle "*".toList (5, 2) (3, 3) =
      some [⟨3, 2, "*".toList⟩, ⟨3, 4, "*".toList⟩, ⟨3, 3, "*".toList⟩,
            ⟨3, 5, "*".toList⟩, ⟨4, 2, "*".toList⟩, ⟨4, 4, "*".toList⟩,
            ⟨4, 3, "*".toList⟩, ⟨4, 5, "*".toList⟩] ∧
    rectangle "*".toList (5, 2) (3, 3) ≠ some [⟨4, 3, "*".toList⟩] := by
  refine ⟨by decide, by decide⟩

lemma rectRows_isSome_iff (ch : List Char) (x width : Nat) (l : List Nat) :
    (rectRows ch x width l).isSome ↔ (l = [] ∨ 1 ≤ x + width) := by
  induction l with
  | nil => simp [rectRows]
  | cons j rest ih =>
    by_cases h : 1 ≤ x + width
    · simp only [rectRows, checkedSub, h, if_true, Option.bind_eq_bind,
        Option.some_bind]
      cases hr : rectRows ch x width rest with
      | none =>
        simp only [hr, Option.isSome_none, Bool.false_eq_true, false_iff] at ih
        exfalso
        exact ih (Or.inr h)
      | some tail => simp [h]
    · simp [rectRows, checkedSub, h]

/-- C10 (counterexample): the claim states that `rectangle`'s arithmetic is
free of underflow exactly when `height ≤ row`; at anchor (5, 0) with
dimensions (2, 0) we have `height = 2 ≤ 5 = row`, yet the inner loop bound
`col + width - 1 = 0 + 0 - 1` underflows and the call is not total. -/
theorem rectangle_underflow_cex :
    (2 : Nat) ≤ 5 ∧ rectangle "*".toList (5, 0) (2, 0) = none := by
  refine ⟨by decide, by decide⟩

/-- C10 (amended): `border`'s unsigned arithmetic is free of underflow
exactly when `height ≤ row + 1` and `1 ≤ col + width` (as claimed), and
`rectangle`'s exactly when `height ≤ row` and, additionally, whenever the
row loop actually runs (`height ≥ 2`), `1 ≤ col + width` — the claim's
condition `height ≤ row` alone misses the inner bound `col + width - 1`. -/
theorem box_underflow_amended (cfg : Config) (ch : List Char)
    (y x height width : Nat) :
    ((border cfg (y, x) (height, width)).isSome ↔
      (height ≤ y + 1 ∧ 1 ≤ x + width)) ∧
    ((rectangle ch (y, x) (height, width)).isSome ↔
      (height ≤ y ∧ (height ≤ 1 ∨ 1 ≤ x + width))) := by
  constructor
  · simp only [border, checkedSub, Option.bind_eq_bind]
    by_cases h1 : height ≤ y + 1
    · by_cases h2 : 1 ≤ x + width
      · have h3 : height ≤ y + 2 := by omega
        simp [h1, h2, h3]
      · simp [h1, h2]
    · simp [h1]
  · simp only [rectangle, checkedSub, Option.bind_eq_bind]
    by_cases h1 : height ≤ y
    · simp only [h1, if_true, Option.some_bind, rectRows_isSome_iff]
      have hrange : rustRange (y - height + 1) y = [] ↔ height ≤ 1 := by
        simp only [rustRange, List.range'_eq_nil]
        omega
      rw [hrange]
      simp [h1]
    · simp [h1]

/-- Modelled from the termion crate (the external dependency whose call
`termion::terminal_size()` decides the ordering in this claim): for a
terminal that is `rows` cells high and `cols` cells wide, the call returns
the pair `(ws_col, ws_row)` — columns first, then rows. -/
def terminal_size (rows cols : Nat) : Nat × Nat :=
  (cols, rows)

/-- `Window::get_max_yx` (src/tui.rs lines 48–54), parametric over the
outcome of the underlying `termion::terminal_size()` call: on failure the
result is `(0, 0)`, and the two components of the successful result are
swapped before returning. -/
def get_max_yx (sizeResult : Option (Nat × Nat)) : Nat × Nat :=
  let (y, x) :=
    match sizeResult with
    | some p => p
    | none => (0, 0)
  (x, y)

/-- The warning `Window::get_max_yx` logs: empty on success, one warning
when the size query failed. -/
def get_max_yx_logs (sizeResult : Option (Nat × Nat)) : List String :=
  match sizeResult with
  | some _ => []
  | none => ["Unable to determine terminal size."]

/-- C3 (counterexample): on a terminal 24 rows high and 80 columns wide the
claim predicts the result `(columns, rows) = (80, 24)`, but `get_max_yx`
swaps the `(columns, rows)` pair termion returns and yields `(24, 80)`. -/
theorem get_max_yx_cex :
    get_max_yx (some (terminal_size 24 80)) ≠ (80, 24) ∧
    get_max_yx (some (terminal_size 24 80)) = (24, 80) := by
  refine ⟨by decide, by decide⟩

/-- C3 (amended): `get_max_yx` returns the terminal's current size ordered
as `(rows, columns)` — the `(columns, rows)` pair of the underlying query,
swapped — and when the underlying size query fails it returns `(0, 0)` and
logs a warning instead of propagating the failure. -/
theorem get_max_yx_amended (rows cols : Nat) :
    get_max_yx (some (terminal_size rows cols)) = (rows, cols) ∧
    get_max_yx none = (0, 0) ∧
    get_max_yx_logs (some (terminal_size rows cols)) = [] ∧
    get_max_yx_logs none = ["Unable to determine terminal size."] :=
  ⟨rfl, rfl, rfl, rfl⟩

/-- `termion::cursor::Goto(x, y)`: the native positioning escape sequence,
one-indexed, written row (`y`) first.  Argument order follows termion:
column, then row. -/
def cursorGoto (x y : Nat) : String :=
  "\x1b[" ++ toString y ++ ";" ++ toString x ++ "H"

/-- `Window::mv` (src/tui.rs lines 86–90): writes
`cursor::Goto(1 + x as u16, 1 + y as u16)`.  The `as u16` cast and the
`u16` addition are modulo 2^16. -/
def mv (y x : Nat) : String :=
  cursorGoto ((1 + x % 65536) % 65536) ((1 + y % 65536) % 65536)

/-- `Window::mvprintw` (src/tui.rs lines 152–162): one write of the same
`cursor::Goto` sequence followed by the text verbatim. -/
def mvprintw (y x : Nat) (text : List Char) : String :=
  cursorGoto ((1 + x % 65536) % 65536) ((1 + y % 65536) % 65536)
    ++ String.mk text

/-- The write of a recorded `mvprintw` call. -/
def PrintEvent.write (e : PrintEvent) : String :=
  mvprintw e.y e.x e.text

/-- C8: the positioning primitives translate zero-indexed logical
(row, column) coordinates into the terminal's one-indexed native addressing
by adding one to each axis before emitting (for every coordinate pair
representable in the native 16-bit encoding). -/
theorem coordinate_translation (y x : Nat) (text : List Char)
    (hy : y < 65535) (hx : x < 65535) :
    mv y x = cursorGoto (1 + x) (1 + y) ∧
    mvprintw y x text = cursorGoto (1 + x) (1 + y) ++ String.mk text := by
  have h1 : x % 65536 = x := Nat.mod_eq_of_lt (by omega)
  have h2 : y % 65536 = y := Nat.mod_eq_of_lt (by omega)
  have h3 : (1 + x) % 65536 = 1 + x := Nat.mod_eq_of_lt (by omega)
  have h4 : (1 + y) % 65536 = 1 + y := Nat.mod_eq_of_lt (by omega)
  constructor <;> simp only [mv, mvprintw, h1, h2, h3, h4]

/-- C8 (witness): `mv(0, 0)` emits a native positioning command equivalent
to row 1, column 1 — the escape sequence `ESC [1;1H`. -/
theorem coordinate_translation_witness :
    mv 0 0 = cursorGoto 1 1 ∧
    mvprintw 0 0 [] = cursorGoto 1 1 ++ String.mk [] :=
  coordinate_translation 0 0 [] (by decide) (by decide)

/-- `termion::clear::All`. -/
def clearAll : String := "\x1b[2J"

/-- `termion::style::Reset`. -/
def styleReset : String := "\x1b[m"

/-- `termion::cursor::Show`. -/
def cursorShow : String := "\x1b[?25h"

/-- `Window::colour_reset` (src/tui.rs lines 139–149): one write of the
terminal-default foreground and background activation sequences, bypassing
the configuration. -/
def colour_reset : List String :=
  [Colour.fg Colour.reset ++ Colour.bg Colour.reset]

/-- `Window::endwin` (src/tui.rs lines 219–231): `colour_reset()` followed
by one write of clear-all, style reset and `cursor::Goto(1, 1)`. -/
def endwin : List String :=
  colour_reset ++ [clearAll ++ styleReset ++ cursorGoto 1 1]

/-- `Window::show_cursor` (src/tui.rs lines 64–68). -/
def show_cursor : List String :=
  [cursorShow]

/-- `Drop for Window` (src/tui.rs lines 22–28): the teardown sequence,
`endwin()` then `show_cursor()`. -/
def windowDrop : List String :=
  endwin ++ show_cursor

/-- C9: the teardown sequence consists of exactly three writes — the colour
reset, then clear-all / style-reset / cursor-to-native-(1,1) (the origin,
logical (0,0)), then cursor-show — so its byte stream performs each of the
five steps exactly once, in that order. -/
theorem teardown_sequence :
    windowDrop = [Colour.fg Colour.reset ++ Colour.bg Colour.reset,
      clearAll ++ styleReset ++ cursorGoto 1 1, cursorShow] ∧
    String.join windowDrop =
      "\x1b[39m" ++ "\x1b[49m" ++ "\x1b[2J" ++ "\x1b[m" ++ "\x1b[1;1H"
        ++ "\x1b[?25h" := by
  refine ⟨rfl, by decide⟩

/-- `Window::colour_on` (src/tui.rs lines 93–123): the writes it performs.
The first `match` selects the foreground activation sequence for index
`fg` (0–7 the palette, 8 the configured default foreground) or returns
early; the second does the same for `bg` with the configured default
background at 8; a single write then emits the two sequences together. -/
def colour_on (cfg : Config) (fg bg : Nat) : List String :=
  match (match fg with
    | 0 => some (Colour.fg cfg.colour0)
    | 1 => some (Colour.fg cfg.colour1)
    | 2 => some (Colour.fg cfg.colour2)
    | 3 => some (Colour.fg cfg.colour3)
    | 4 => some (Colour.fg cfg.colour4)
    | 5 => some (Colour.fg cfg.colour5)
    | 6 => some (Colour.fg cfg.colour6)
    | 7 => some (Colour.fg cfg.colour7)
    | 8 => some (Colour.fg cfg.colourfg)
    | _ => none) with
  | none => []
  | some fgcol =>
    match (match bg with
      | 0 => some (Colour.bg cfg.colour0)
      | 1 => some (Colour.bg cfg.colour1)
      | 2 => some (Colour.bg cfg.colour2)
      | 3 => some (Colour.bg cfg.colour3)
      | 4 => some (Colour.bg cfg.colour4)
      | 5 => some (Colour.bg cfg.colour5)
      | 6 => some (Colour.bg cfg.colour6)
      | 7 => some (Colour.bg cfg.colour7)
      | 8 => some (Colour.bg cfg.colourbg)
      | _ => none) with
    | none => []
    | some bgcol => [fgcol ++ bgcol]

/-- The configured colour a foreground index in `0..=8` selects: indices
0–7 the palette, 8 the configured default foreground.  (Only its values on
`0..=8` are used; `colour_on` handles larger indices separately.) -/
def paletteFg (cfg : Config) : Nat → Colour
  | 0 => cfg.colour0
  | 1 => cfg.colour1
  | 2 => cfg.colour2
  | 3 => cfg.colour3
  | 4 => cfg.colour4
  | 5 => cfg.colour5
  | 6 => cfg.colour6
  | 7 => cfg.colour7
  | _ => cfg.colourfg

/-- The configured colour a background index in `0..=8` selects: indices
0–7 the palette, 8 the configured default background. -/
def paletteBg (cfg : Config) : Nat → Colour
  | 0 => cfg.colour0
  | 1 => cfg.colour1
  | 2 => cfg.colour2
  | 3 => cfg.colour3
  | 4 => cfg.colour4
  | 5 => cfg.colour5
  | 6 => cfg.colour6
  | 7 => cfg.colour7
  | _ => cfg.colourbg

/-- C7: when both indices are at most 8, `colour_on` performs exactly one
write combining the selected foreground and background activation
sequences — indices 0–7 selecting the corresponding configured palette
colour and index 8 the configured default foreground (resp. background) —
and when either index exceeds 8 it writes nothing (silent no-op). -/
theorem colour_on_bounds (cfg : Config) (fg bg : Nat) :
    (fg ≤ 8 → bg ≤ 8 → colour_on cfg fg bg =
      [Colour.fg (paletteFg cfg fg) ++ Colour.bg (paletteBg cfg bg)]) ∧
    (8 < fg ∨ 8 < bg → colour_on cfg fg bg = []) := by
  constructor
  · intro hfg hbg
    interval_cases fg <;> interval_cases bg <;> rfl
  · intro h
    rcases le_or_lt fg 8 with hf | hf
    · have hb : 8 < bg := by omega
      obtain ⟨n, rfl⟩ : ∃ n, bg = n + 9 := ⟨bg - 9, by omega⟩
      interval_cases fg <;> rfl
    · obtain ⟨n, rfl⟩ : ∃ n, fg = n + 9 := ⟨fg - 9, by omega⟩
      rfl

/-- C7 (witness): with the default configuration, `colour_on(9, 0)` and
`colour_on(0, 9)` produce no output, and `colour_on(1, 8)` performs the
single combined write of the red foreground and the default background. -/
theorem colour_on_bounds_witness :
    colour_on Config.default 9 0 = [] ∧
    colour_on Config.default 0 9 = [] ∧
    colour_on Config.default 1 8 =
      [Colour.fg Colour.red ++ Colour.bg Colour.reset] :=
  ⟨(colour_on_bounds Config.default 9 0).2 (Or.inl (by omega)),
   (colour_on_bounds Config.default 0 9).2 (Or.inr (by omega)),
   (colour_on_bounds Config.default 1 8).1 (by omega) (by omega)⟩
